import Mathlib

/-!
Verification of the joke-fetching LLM adapter repository.

The repository has two units with logic:
* `AnthropicChatModel._generate` (src/src/llm.py): converts a list of
  LangChain messages into an Anthropic request payload (separating the
  system prompt from the user/assistant turns), performs the provider
  call, and wraps the first content block of the response into an
  assistant message.
* `get_joke` (src/src/main.py): builds a fixed two-message conversation
  and returns the content of the message produced by the model's
  `invoke`.

The network call is modelled as an explicit function argument
`callProvider : RequestParams → Except ε AnthropicResponse`; everything
else is a direct translation of the Python source.
-/

/-- A LangChain message. `system`, `human` and `ai` mirror
`SystemMessage`, `HumanMessage` and `AIMessage`; `other` stands for any
further `BaseMessage` subclass (tool, function, chat, ...), which the
adapter's `isinstance` chain does not match. -/
inductive BaseMessage where
  | system (content : String)
  | human (content : String)
  | ai (content : String)
  | other (kind : String) (content : String)
deriving DecidableEq, Repr

/-- The `.content` attribute of a message. -/
def BaseMessage.content : BaseMessage → String
  | .system c => c
  | .human c => c
  | .ai c => c
  | .other _ c => c

/-- One element of the `messages` list of the Anthropic request:
a dict `{"role": ..., "content": ...}`. -/
structure Turn where
  role : String
  content : String
deriving DecidableEq, Repr

/-- The `request_params` dict built by `_generate`.  `system = none`
models the absence of the `"system"` key. -/
structure RequestParams where
  model : String
  max_tokens : Nat
  messages : List Turn
  system : Option String
deriving DecidableEq, Repr

/-- One content block of an Anthropic response (`block.text`). -/
structure ContentBlock where
  text : String
deriving DecidableEq, Repr

/-- An Anthropic response: a list of content blocks. -/
structure AnthropicResponse where
  content : List ContentBlock
deriving DecidableEq, Repr

/-- A LangChain `ChatGeneration`, wrapping one message. -/
structure ChatGeneration where
  message : BaseMessage
deriving DecidableEq, Repr

/-- A LangChain `ChatResult`, wrapping a list of generations. -/
structure ChatResult where
  generations : List ChatGeneration
deriving DecidableEq, Repr

/-- The chat-model configuration: the two fields of
`AnthropicChatModel` with their Python default values. -/
structure AnthropicChatModel where
  model_name : String := "claude-opus-4-6"
  max_tokens : Nat := 1024
deriving DecidableEq, Repr

/-- The value `AnthropicChatModel()` with all defaults, as constructed
by `get_joke` when no model is supplied. -/
def defaultModel : AnthropicChatModel := {}

/-- The message loop of `_generate` (src/src/llm.py lines 44-50):
starting from `system_prompt = sp` and `conversation = conv`, each
`SystemMessage` overwrites `system_prompt`, each `HumanMessage` appends
a `user` turn, each `AIMessage` appends an `assistant` turn, and any
other message is skipped. -/
def processMessages : List BaseMessage → Option String → List Turn →
    Option String × List Turn
  | [], sp, conv => (sp, conv)
  | .system c :: rest, _, conv => processMessages rest (some c) conv
  | .human c :: rest, sp, conv =>
      processMessages rest sp (conv ++ [{ role := "user", content := c }])
  | .ai c :: rest, sp, conv =>
      processMessages rest sp (conv ++ [{ role := "assistant", content := c }])
  | .other _ _ :: rest, sp, conv => processMessages rest sp conv

/-- The request construction of `_generate` (src/src/llm.py lines
41-58): run the message loop, then build `request_params`, adding the
`"system"` key only when `if system_prompt:` is truthy, i.e. when the
prompt is set and non-empty. -/
def buildRequestParams (m : AnthropicChatModel) (messages : List BaseMessage) :
    RequestParams :=
  let r := processMessages messages none []
  { model := m.model_name
    max_tokens := m.max_tokens
    messages := r.2
    system :=
      match r.1 with
      | some s => if s.isEmpty then none else some s
      | none => none }

/-- A failure of the generate step: either the provider call failed, or
`response.content[0]` raised because the response had no content
blocks. `noGeneration` is the (unreachable for this adapter) failure of
reading the first generation out of a `ChatResult`. -/
inductive GenFailure (ε : Type) where
  | provider (e : ε)
  | indexError
  | noGeneration
deriving DecidableEq, Repr

/-- The method `AnthropicChatModel._generate` (src/src/llm.py): build the request,
perform the provider call, read `response.content[0].text`, and wrap an
`AIMessage` with that text into a `ChatResult`. -/
def _generate {ε : Type} (m : AnthropicChatModel)
    (callProvider : RequestParams → Except ε AnthropicResponse)
    (messages : List BaseMessage) : Except (GenFailure ε) ChatResult :=
  match callProvider (buildRequestParams m messages) with
  | Except.error e => Except.error (GenFailure.provider e)
  | Except.ok response =>
      match response.content with
      | [] => Except.error GenFailure.indexError
      | blk :: _ =>
          Except.ok { generations := [{ message := BaseMessage.ai blk.text }] }

/-- The LangChain `invoke` entry point as used by `get_joke`
(external framework code, per the spec's generic chat-model interface):
run `_generate` and return the first generation's message. -/
def invoke {ε : Type} (m : AnthropicChatModel)
    (callProvider : RequestParams → Except ε AnthropicResponse)
    (messages : List BaseMessage) : Except (GenFailure ε) BaseMessage :=
  match _generate m callProvider messages with
  | Except.error e => Except.error e
  | Except.ok res =>
      match res.generations with
      | [] => Except.error GenFailure.noGeneration
      | g :: _ => Except.ok g.message

/-- The apostrophe character, used to spell the joke string. -/
def apos : String := String.singleton (Char.ofNat 39)

/-- The fixed joke returned by the test double in
src/tests/test_main.py. -/
def atomsJoke : String :=
  "Why don" ++ apos ++ "t scientists trust atoms? Because they make up everything!"

/-- The fixed two-message conversation constructed by `get_joke`
(src/src/main.py lines 19-22). -/
def jokeMessages : List BaseMessage :=
  [BaseMessage.system "You are a witty comedian who specialises in short, clever jokes.",
   BaseMessage.human "Tell me one short, funny joke."]

/-- The function `get_joke` (src/src/main.py): if no model is supplied, construct
`AnthropicChatModel()` (its `invoke` with the ambient provider call
`callProvider`); invoke the chosen model on the fixed conversation and
return the reply's `.content`. -/
def get_joke {ε : Type}
    (callProvider : RequestParams → Except ε AnthropicResponse)
    (llm : Option (List BaseMessage → Except (GenFailure ε) BaseMessage)) :
    Except (GenFailure ε) String :=
  let l :=
    match llm with
    | none => invoke defaultModel callProvider
    | some x => x
  match l jokeMessages with
  | Except.error e => Except.error e
  | Except.ok response => Except.ok response.content

/-- Specification-side reading of the turn mapping: a `human` message
becomes a `user` turn, an `ai` message an `assistant` turn, anything
else no turn. -/
def turnOfSpec : BaseMessage → Option Turn
  | .human c => some { role := "user", content := c }
  | .ai c => some { role := "assistant", content := c }
  | .system _ => none
  | .other _ _ => none

/-- Whether a message is a system message. -/
def isSystemMsg : BaseMessage → Bool
  | .system _ => true
  | .human _ => false
  | .ai _ => false
  | .other _ _ => false

/-- The message loop over an appended list runs the loop over the first
part and continues with its state. -/
theorem processMessages_append (l1 l2 : List BaseMessage) (sp : Option String)
    (conv : List Turn) :
    processMessages (l1 ++ l2) sp conv =
      processMessages l2 (processMessages l1 sp conv).1 (processMessages l1 sp conv).2 := by
  induction l1 generalizing sp conv with
  | nil => rfl
  | cons x rest ih => cases x <;> simp [processMessages, ih]

/-- The turns produced by the message loop are the accumulator followed
by the user/assistant messages mapped through `turnOfSpec`. -/
theorem processMessages_turns (msgs : List BaseMessage) (sp : Option String)
    (conv : List Turn) :
    (processMessages msgs sp conv).2 = conv ++ msgs.filterMap turnOfSpec := by
  induction msgs generalizing sp conv with
  | nil => simp [processMessages]
  | cons x rest ih => cases x <;> simp [processMessages, turnOfSpec, ih]

/-- A stretch of messages with no system message leaves the system
prompt unchanged. -/
theorem processMessages_sys_of_noSys (msgs : List BaseMessage) (sp : Option String)
    (conv : List Turn) (h : ∀ x ∈ msgs, isSystemMsg x = false) :
    (processMessages msgs sp conv).1 = sp := by
  induction msgs generalizing sp conv with
  | nil => rfl
  | cons x rest ih =>
    have hx : isSystemMsg x = false := h x (by simp)
    have hr : ∀ y ∈ rest, isSystemMsg y = false := fun y hy => h y (by simp [hy])
    cases x with
    | system c => simp [isSystemMsg] at hx
    | human c => simpa [processMessages] using ih sp _ hr
    | ai c => simpa [processMessages] using ih sp _ hr
    | other k c => simpa [processMessages] using ih sp _ hr

/-- Filtering the system messages out does not change the turns. -/
theorem filterMap_turnOf_filter (msgs : List BaseMessage) :
    (msgs.filter (fun x => !isSystemMsg x)).filterMap turnOfSpec =
      msgs.filterMap turnOfSpec := by
  induction msgs with
  | nil => rfl
  | cons x rest ih =>
    cases x <;> simpa [List.filter, isSystemMsg, turnOfSpec] using ih

/-- Two request payloads with equal fields are equal. -/
theorem requestParamsExt {p q : RequestParams} (h1 : p.model = q.model)
    (h2 : p.max_tokens = q.max_tokens) (h3 : p.messages = q.messages)
    (h4 : p.system = q.system) : p = q := by
  cases p; cases q; simp_all

/-- The turns of any built request are the user/assistant projection of
the conversation. -/
theorem buildRequestParams_messages (m : AnthropicChatModel)
    (msgs : List BaseMessage) :
    (buildRequestParams m msgs).messages = msgs.filterMap turnOfSpec := by
  simp [buildRequestParams, processMessages_turns]

/-- Claim C1 (counterexample): for the conversation
`[System(""), User(u)]` the built request has no system key at all
(the slot is `none`), so its system slot is not the (empty) content of
the system message. The claim fails for the empty string because
`_generate` tests the prompt for truthiness. -/
theorem systemSlotEmptyCounterexample :
    (buildRequestParams defaultModel
      [BaseMessage.system "", BaseMessage.human "Tell me one short, funny joke."]).system =
      none ∧
    (buildRequestParams defaultModel
      [BaseMessage.system "", BaseMessage.human "Tell me one short, funny joke."]).system ≠
      some "" := by decide

/-- Claim C1 (amended): for a conversation `[System(s), User(u)]` the
built request's turns are exactly `[{role: "user", content: u}]`; its
system slot equals `s` whenever `s` is non-empty, and the system key is
omitted (the slot is `none`) when `s` is the empty string. -/
theorem systemAndSingleUserTurn (m : AnthropicChatModel) (s u : String) :
    (buildRequestParams m [BaseMessage.system s, BaseMessage.human u]).messages =
      [{ role := "user", content := u }] ∧
    (buildRequestParams m [BaseMessage.system s, BaseMessage.human u]).system =
      if s.isEmpty then none else some s := by
  constructor
  · simp [buildRequestParams, processMessages]
  · simp [buildRequestParams, processMessages]

/-- Claim C2: the turns of any built request are exactly the user and
assistant messages of the conversation, in order, with `human` mapped
to role `"user"`, `ai` mapped to role `"assistant"`, and content
unchanged (the projection `turnOfSpec`). -/
theorem turnsAreOrderedUserAssistant (m : AnthropicChatModel)
    (msgs : List BaseMessage) :
    (buildRequestParams m msgs).messages = msgs.filterMap turnOfSpec :=
  buildRequestParams_messages m msgs

/-- Claim C3: a conversation with no system message yields a request
without the system key. -/
theorem noSystemMessageOmitsKey (m : AnthropicChatModel)
    (msgs : List BaseMessage) (h : ∀ x ∈ msgs, isSystemMsg x = false) :
    (buildRequestParams m msgs).system = none := by
  simp [buildRequestParams, processMessages_sys_of_noSys msgs none [] h]

/-- Witness for C3 at a concrete conversation. -/
theorem noSystemMessageOmitsKeyWitness :
    (buildRequestParams defaultModel
      [BaseMessage.human "Tell me one short, funny joke."]).system = none :=
  noSystemMessageOmitsKey defaultModel
    [BaseMessage.human "Tell me one short, funny joke."] (by decide)

/-- Claim C4 (counterexample): in the conversation
`[System("You are a comedian."), System("")]` the last system message's
content is `""`, but the built request's system slot is not `some ""`
(the key is omitted), so the last system message does not simply win. -/
theorem lastSystemEmptyCounterexample :
    (buildRequestParams defaultModel
      [BaseMessage.system "You are a comedian.", BaseMessage.system ""]).system ≠
      some "" := by decide

/-- Claim C4 (amended): in a conversation with two or more system
messages whose last system message has content `s`, the built request's
system slot equals `s` when `s` is non-empty, and the system key is
omitted when `s` is empty. -/
theorem lastSystemWins (m : AnthropicChatModel) (pre post : List BaseMessage)
    (s : String)
    (_twoSys : 2 ≤ (pre ++ BaseMessage.system s :: post).countP
      (fun x => isSystemMsg x))
    (hpost : ∀ x ∈ post, isSystemMsg x = false) :
    (buildRequestParams m (pre ++ BaseMessage.system s :: post)).system =
      if s.isEmpty then none else some s := by
  simp only [buildRequestParams, processMessages_append, processMessages]
  rw [processMessages_sys_of_noSys post (some s) _ hpost]

/-- Witness for C4's amended theorem at a concrete conversation. -/
theorem lastSystemWinsWitness :
    (buildRequestParams defaultModel
      [BaseMessage.system "Be dry.", BaseMessage.system "Be witty."]).system =
      some "Be witty." :=
  (lastSystemWins defaultModel [BaseMessage.system "Be dry."] [] "Be witty."
    (by decide) (by decide)).trans (by decide)

/-- Claim C5: whenever `_generate` succeeds, its result wraps exactly
one assistant (`ai`) message, whatever the roles in the input
conversation were, and the message's content is the text of the first
content block of the provider's response. -/
theorem replyIsAssistant {ε : Type} (m : AnthropicChatModel)
    (callProvider : RequestParams → Except ε AnthropicResponse)
    (messages : List BaseMessage) (res : ChatResult)
    (h : _generate m callProvider messages = Except.ok res) :
    ∃ t, res.generations = [{ message := BaseMessage.ai t }] ∧
      ∀ resp, callProvider (buildRequestParams m messages) = Except.ok resp →
        ∀ blk rest, resp.content = blk :: rest → t = blk.text := by
  unfold _generate at h
  split at h
  next e heq => cases h
  next resp heq =>
    split at h
    next hc => cases h
    next blk tail hc =>
      cases h
      refine ⟨blk.text, rfl, ?_⟩
      intro resp2 hp2 blk2 rest2 hc2
      rw [heq] at hp2
      cases hp2
      rw [hc] at hc2
      cases hc2
      rfl

/-- A provider double that always succeeds with a single content
block. -/
def okProvider : RequestParams → Except Unit AnthropicResponse :=
  fun _ => Except.ok { content := [{ text := "ha" }] }

/-- Witness for C5 at a concrete provider response. -/
theorem replyIsAssistantWitness :
    ∃ t, ({ generations := [{ message := BaseMessage.ai "ha" }] } : ChatResult).generations =
        [{ message := BaseMessage.ai t }] ∧
      ∀ resp, okProvider (buildRequestParams defaultModel jokeMessages) = Except.ok resp →
        ∀ blk rest, resp.content = blk :: rest → t = blk.text :=
  replyIsAssistant defaultModel okProvider jokeMessages
    { generations := [{ message := BaseMessage.ai "ha" }] } rfl

/-- Claim C6: if the supplied model's invoke fails, `get_joke` returns
that same failure unchanged and produces no joke. -/
theorem errorPropagates {ε : Type}
    (callProvider : RequestParams → Except ε AnthropicResponse)
    (l : List BaseMessage → Except (GenFailure ε) BaseMessage)
    (e : GenFailure ε) (h : l jokeMessages = Except.error e) :
    get_joke callProvider (some l) = Except.error e := by
  simp [get_joke, h]

/-- A provider double that always fails. -/
def errorProvider : RequestParams → Except String AnthropicResponse :=
  fun _ => Except.error "network down"

/-- A model double whose invoke always fails. -/
def failingLLM : List BaseMessage → Except (GenFailure String) BaseMessage :=
  fun _ => Except.error (GenFailure.provider "rate limited")

/-- Witness for C6 at a concrete failing model double. -/
theorem errorPropagatesWitness :
    get_joke errorProvider (some failingLLM) =
      Except.error (GenFailure.provider "rate limited") :=
  errorPropagates errorProvider failingLLM (GenFailure.provider "rate limited") rfl

/-- Claim C7: `get_joke` with a supplied model returns exactly the
content of the reply message that model produces; in particular a test
double replying with the fixed atoms joke makes `get_joke` return that
very string. -/
theorem jokeTextReturned {ε : Type}
    (callProvider : RequestParams → Except ε AnthropicResponse)
    (l : List BaseMessage → Except (GenFailure ε) BaseMessage)
    (reply : BaseMessage) (h : l jokeMessages = Except.ok reply) :
    get_joke callProvider (some l) = Except.ok reply.content ∧
    (reply = BaseMessage.ai atomsJoke →
      get_joke callProvider (some l) = Except.ok atomsJoke) := by
  constructor
  · simp [get_joke, h]
  · intro hr
    subst hr
    simp [get_joke, h, BaseMessage.content]

/-- A provider double over the unit error type. -/
def unitProvider : RequestParams → Except Unit AnthropicResponse :=
  fun _ => Except.error ()

/-- A model double that always replies with the fixed atoms joke, as in
src/tests/test_main.py. -/
def atomsAdapter : List BaseMessage → Except (GenFailure Unit) BaseMessage :=
  fun _ => Except.ok (BaseMessage.ai atomsJoke)

/-- Witness for C7 with the test-double model of the repository's
test. -/
theorem jokeTextReturnedWitness :
    get_joke unitProvider (some atomsAdapter) = Except.ok atomsJoke :=
  (jokeTextReturned unitProvider atomsAdapter (BaseMessage.ai atomsJoke) rfl).2 rfl

/-- Claim C8: with no model supplied, `get_joke` uses the default
`AnthropicChatModel()`; with a model supplied it uses that one; in both
cases it invokes the model on the fixed two-message conversation
`jokeMessages`, which is one system message (the comedian persona)
followed by one user message (the joke request), and returns the
reply's content. -/
theorem getJokeUsesAdapterAndFixedConversation {ε : Type}
    (callProvider : RequestParams → Except ε AnthropicResponse)
    (l : List BaseMessage → Except (GenFailure ε) BaseMessage) :
    get_joke callProvider none =
      Except.map BaseMessage.content (invoke defaultModel callProvider jokeMessages) ∧
    get_joke callProvider (some l) =
      Except.map BaseMessage.content (l jokeMessages) ∧
    jokeMessages =
      [BaseMessage.system "You are a witty comedian who specialises in short, clever jokes.",
       BaseMessage.human "Tell me one short, funny joke."] := by
  refine ⟨?_, ?_, rfl⟩
  · cases hi : invoke defaultModel callProvider jokeMessages <;>
      simp [get_joke, Except.map, hi]
  · cases hl : l jokeMessages <;> simp [get_joke, Except.map, hl]

/-- A conversation without system messages builds a request without the
system key. -/
theorem buildRequestParams_system_of_noSys (m : AnthropicChatModel)
    (msgs : List BaseMessage) (h : ∀ x ∈ msgs, isSystemMsg x = false) :
    (buildRequestParams m msgs).system = none := by
  simp [buildRequestParams, processMessages_sys_of_noSys msgs none [] h]

/-- Members of the non-system filtering are not system messages. -/
theorem noSys_of_mem_filter (msgs : List BaseMessage) :
    ∀ x ∈ msgs.filter (fun y => !isSystemMsg y), isSystemMsg x = false := by
  intro x hx
  simpa using List.of_mem_filter hx

/-- Claim C9 (counterexample): the conversation
`[System(""), System("Keep answers short.")]` contains a system message
with empty content, yet the built request does not omit the system key,
so an empty system message is not in general treated as absent. -/
theorem emptySystemNotAbsentCounterexample :
    (buildRequestParams defaultModel
      [BaseMessage.system "", BaseMessage.system "Keep answers short."]).system ≠
      none := by decide

/-- Claim C9 (amended): when the last system message of the
conversation has empty content, the built request omits the system key,
and the request equals the one built from the conversation with all its
system messages removed. -/
theorem emptySystemOmitted (m : AnthropicChatModel) (pre post : List BaseMessage)
    (hpost : ∀ x ∈ post, isSystemMsg x = false) :
    (buildRequestParams m (pre ++ BaseMessage.system "" :: post)).system = none ∧
    buildRequestParams m (pre ++ BaseMessage.system "" :: post) =
      buildRequestParams m
        ((pre ++ BaseMessage.system "" :: post).filter (fun x => !isSystemMsg x)) := by
  have hsys : (buildRequestParams m (pre ++ BaseMessage.system "" :: post)).system = none := by
    simp only [buildRequestParams, processMessages_append, processMessages]
    rw [processMessages_sys_of_noSys post (some "") _ hpost]
    decide
  refine ⟨hsys, requestParamsExt rfl rfl ?_ ?_⟩
  · rw [buildRequestParams_messages, buildRequestParams_messages, filterMap_turnOf_filter]
  · rw [hsys, buildRequestParams_system_of_noSys m _ (noSys_of_mem_filter _)]

/-- Witness for C9's amended theorem at a concrete conversation. -/
theorem emptySystemOmittedWitness :
    (buildRequestParams defaultModel [BaseMessage.system ""]).system = none ∧
    buildRequestParams defaultModel [BaseMessage.system ""] =
      buildRequestParams defaultModel
        (List.filter (fun x => !isSystemMsg x) [BaseMessage.system ""]) :=
  emptySystemOmitted defaultModel [] [] (by decide)

/-- Claim C10: a message that is neither system nor user nor assistant
is dropped: the request built from a conversation containing it equals
the request built from the conversation without it. -/
theorem otherMessagesDropped (m : AnthropicChatModel) (pre post : List BaseMessage)
    (kind c : String) :
    buildRequestParams m (pre ++ BaseMessage.other kind c :: post) =
      buildRequestParams m (pre ++ post) := by
  simp only [buildRequestParams, processMessages_append, processMessages]
